import Mathlib

/-!
# Verification of the BadAssBBQS cronjob scraper

Shallow embedding, in Lean 4, of the scraping and reconciliation pipeline
of the repository (src/light_scraper.py, src/index.py), together with
theorems settling the specification claims about it.

Conventions of the embedding:
* Python dicts produced by the scraper become the `Product` structure,
  with one Lean field per JSON key the code writes.
* Python `None` becomes `Option.none`; absence of an `updated_at` key is
  `updated_at = none`.
* Python floats: the code stores `float(price_clean)`; the embedding keeps
  the accepted numeric literal string in the `PriceVal.num` constructor
  (floating-point arithmetic itself plays no role in any claim).
* DOM queries (BeautifulSoup selectors) are modelled by a `Doc` structure:
  each selector group yields either its result, or `Except.error ()`
  standing for a Python exception raised while that rule interrogates the
  document.
* The Supabase store becomes an explicit `StoreState` (list of rows plus a
  fresh-id counter); network faults are injected by an explicit oracle.
-/

namespace BBQ

/-! ## Price values (light_scraper.py, scrape_product, lines 214-224) -/

/-- The value stored under the `Price` key: `null` when the price element is
absent, a parsed number (kept as its accepted literal string) when
`float(price_clean)` succeeds, else the text the code keeps. -/
inductive PriceVal where
  | null : PriceVal
  | num (lit : String) : PriceVal
  | text (s : String) : PriceVal
deriving DecidableEq, Repr

/-- ASCII whitespace, as stripped by Python `str.strip()` / `float()`.
(The further Unicode whitespace Python strips does not occur in the
scraped texts and is not modelled.) -/
def isSpaceChar (c : Char) : Bool :=
  c = ' ' ∨ c = '\t' ∨ c = '\n' ∨ c = '\r' ∨ c = '\x0b' ∨ c = '\x0c'

/-- Python `str.strip()` on a character list. -/
def trimChars (cs : List Char) : List Char :=
  ((cs.dropWhile isSpaceChar).reverse.dropWhile isSpaceChar).reverse

/-- Python `str.strip()`. -/
def pyStrip (s : String) : String := String.mk (trimChars s.data)

/-- ASCII lower-casing of one character. -/
def lowerChar (c : Char) : Char :=
  if 'A' ≤ c ∧ c ≤ 'Z' then Char.ofNat (c.toNat + 32) else c

/-- ASCII lower-casing of a character list. -/
def pyLower (cs : List Char) : List Char := cs.map lowerChar

/-- Consume leading decimal digits; return how many and the rest. -/
def consumeDigits : List Char → Nat × List Char
  | [] => (0, [])
  | c :: cs =>
    if c.isDigit then
      let (n, rest) := consumeDigits cs
      (n + 1, rest)
    else
      (0, c :: cs)

/-- Optional exponent part of a Python float literal: empty, or `[eE][+-]?digits`. -/
def expPartOk : List Char → Bool
  | [] => true
  | c :: cs =>
    if c = 'e' ∨ c = 'E' then
      let cs' := match cs with
        | d :: ds => if d = '+' ∨ d = '-' then ds else d :: ds
        | [] => []
      let (n, rest) := consumeDigits cs'
      n > 0 && rest.isEmpty
    else
      false

/-- Unsigned body of a Python float literal:
`digits [. digits] [exp]` or `. digits [exp]`, with at least one digit. -/
def floatBodyOk (cs : List Char) : Bool :=
  let (n1, cs1) := consumeDigits cs
  match cs1 with
  | '.' :: cs2 =>
    let (n2, cs3) := consumeDigits cs2
    (n1 + n2 > 0) && expPartOk cs3
  | rest => n1 > 0 && expPartOk rest

/-- Model of CPython `float(s)` acceptance: optional surrounding whitespace,
optional sign, then a float literal or `inf`/`infinity`/`nan`
(case-insensitive).  (The underscore digit-separator rule of Python is not
modelled; no scraped price text contains it.) -/
def pyFloatAccepts (s : String) : Bool :=
  let cs := pyLower (trimChars s.data)
  let cs := match cs with
    | c :: rest => if c = '+' ∨ c = '-' then rest else c :: rest
    | [] => []
  floatBodyOk cs || cs = "inf".data || cs = "infinity".data || cs = "nan".data

/-- `price_clean = price_text.replace('$', '').replace(',', '').strip()`. -/
def priceClean (priceText : String) : String :=
  String.mk (trimChars (priceText.data.filter (fun c => c ≠ '$' ∧ c ≠ ',')))

/-- The Price rule of `scrape_product` (light_scraper.py lines 215-224):
absent element gives `null`; else try `float(price_clean)`; on `ValueError`
keep `price_text` (the raw element text, before the stripping). -/
def priceRule (priceText? : Option String) : PriceVal :=
  match priceText? with
  | none => .null
  | some t =>
    if pyFloatAccepts (priceClean t) then .num (priceClean t) else .text t

/-! ## The product record (the dict built by `scrape_product`) -/

/-- One scraped product: exactly the keys `scrape_product` writes
(light_scraper.py lines 207-291), plus the `updated_at` key that exists only
once the reconciliation update path has added it (index.py line 130);
extraction leaves it `none`. -/
structure Product where
  url : String
  Title : String
  Price : PriceVal
  brand : String
  /-- `image_links[0].get('href')` may be Python `None`; absent carousel gives `''`. -/
  Image : Option String
  Other_image : List String
  Id : String
  Model : String
  category : List String
  Description : String
  /-- One `{name: value}` single-key dict per table row. -/
  Specifications : List (String × String)
  updated_at : Option String
deriving DecidableEq, Repr

/-! ## Field rules of `scrape_product` (light_scraper.py lines 201-298) -/

/-- Title rule (line 211-212): heading text, or `''` when no `h1`. -/
def titleRule (h1 : Option String) : String := h1.getD ""

/-- Brand rule (lines 227-231): the brand-page anchor, else the fallback
anchor, else `''`. -/
def brandRule (primary fallback : Option String) : String :=
  ((match primary with | some b => some b | none => fallback)).getD ""

/-- Primary image rule (line 235): first carousel href (possibly Python
`None`), or `''` when the carousel is empty. -/
def imageRule (links : List (Option String)) : Option String :=
  match links with
  | [] => some ""
  | l :: _ => l

/-- Other images rule (line 236): all truthy hrefs, in order. -/
def otherImagesRule (links : List (Option String)) : List String :=
  (links.filterMap id).filter (fun s => s ≠ "")

/-- Does `pat` occur as a contiguous run inside `cs`? -/
def subOccurs (pat : List Char) : List Char → Bool
  | [] => pat.isEmpty
  | c :: cs => pat.isPrefixOf (c :: cs) || subOccurs pat cs

/-- Does `pat` occur as a substring of `s`?  (Python `pat in s`.) -/
def containsSub (s pat : String) : Bool :=
  subOccurs pat.data s.data

/-- Python `text.split('#')[-1].strip()`: the text after the last `#`
(the whole text when there is none), stripped. -/
def afterLastHash (t : String) : String :=
  pyStrip (String.mk ((t.data.reverse.takeWhile (fun c => c ≠ '#')).reverse))

/-- Id/Model rule (lines 239-250): scan the designated spans; a span
containing `ID #` sets `Id`, else one containing `Model #` sets `Model`;
later matches overwrite earlier ones; defaults `('', '')`. -/
def idModelRule (spans : List String) : String × String :=
  spans.foldl
    (fun acc t =>
      if containsSub t "ID #" then (afterLastHash t, acc.2)
      else if containsSub t "Model #" then (acc.1, afterLastHash t)
      else acc)
    ("", "")

/-- Category rule (lines 253-254): breadcrumb link texts in order. -/
def categoryRule (breadcrumbs : List String) : List String := breadcrumbs

/-- Description rule (lines 257-275): key-feature bullet (if present), each
feature-list item, the long description block (if present), joined with
single spaces and stripped. -/
def descriptionRule (keyFeature : Option String) (bullets : List String)
    (descDiv : Option String) : String :=
  pyStrip (String.intercalate " " (keyFeature.toList ++ bullets ++ descDiv.toList))

/-- One `tbody tr` row: header-cell text (after stripping embedded buttons)
and value-cell text, each `none` when the cell is absent. -/
structure SpecRow where
  header : Option String
  value : Option String
deriving DecidableEq, Repr

/-- Specifications rule (lines 278-291): rows with both cells present yield
one `(name, value)` pair each, order and duplicates preserved. -/
def specsRule (rows : List SpecRow) : List (String × String) :=
  rows.filterMap (fun r =>
    match r.header, r.value with
    | some h, some v => some (h, v)
    | _, _ => none)

/-- The item document as `scrape_product` interrogates it: one component per
selector group.  `Except.error ()` models a Python exception raised while
that rule's DOM operations run; `.ok` carries the selector's result
(`none` / `[]` = element absent). -/
structure Doc where
  h1 : Except Unit (Option String)
  priceSpan : Except Unit (Option String)
  brandPrimary : Except Unit (Option String)
  brandFallback : Except Unit (Option String)
  carouselHrefs : Except Unit (List (Option String))
  idSpans : Except Unit (List String)
  breadcrumbs : Except Unit (List String)
  keyFeatureBullet : Except Unit (Option String)
  bulletItems : Except Unit (List String)
  descDiv : Except Unit (Option String)
  specRows : Except Unit (List SpecRow)

/-- `scrape_product` (light_scraper.py lines 201-298).  The single
`try/except` around all field rules becomes one `Except Unit` computation
whose failure yields `none` (the code's `return None`); the fallback brand
selector runs only when the primary one found nothing, exactly as in the
code. -/
def scrape_product (url : String) (d : Doc) : Option Product :=
  (do
    let h1 ← d.h1
    let priceText? ← d.priceSpan
    let primary ← d.brandPrimary
    let brandElem ← match primary with
      | some b => Except.ok (some b)
      | none => d.brandFallback
    let links ← d.carouselHrefs
    let spans ← d.idSpans
    let bcs ← d.breadcrumbs
    let kf ← d.keyFeatureBullet
    let bullets ← d.bulletItems
    let dd ← d.descDiv
    let rows ← d.specRows
    Except.ok
      { url := url
        Title := titleRule h1
        Price := priceRule priceText?
        brand := brandElem.getD ""
        Image := imageRule links
        Other_image := otherImagesRule links
        Id := (idModelRule spans).1
        Model := (idModelRule spans).2
        category := categoryRule bcs
        Description := descriptionRule kf bullets dd
        Specifications := specsRule rows
        updated_at := none } : Except Unit Product).toOption

/-- `true` when a selector group's DOM operations raise. -/
def isErr {α : Type} : Except Unit α → Bool
  | .error _ => true
  | .ok _ => false

/-- `true` exactly on `.ok none` (primary brand selector ran, found nothing). -/
def isOkNone {α : Type} : Except Unit (Option α) → Bool
  | .ok none => true
  | _ => false

/-- A fault is raised during extraction iff one of the selector groups the
code actually executes raises (the brand fallback runs only when the
primary selector found nothing). -/
def docFaults (d : Doc) : Bool :=
  isErr d.h1 || isErr d.priceSpan || isErr d.brandPrimary ||
  (isOkNone d.brandPrimary && isErr d.brandFallback) ||
  isErr d.carouselHrefs || isErr d.idSpans || isErr d.breadcrumbs ||
  isErr d.keyFeatureBullet || isErr d.bulletItems || isErr d.descDiv ||
  isErr d.specRows

/-- Number of selector groups of a document that raise. -/
def docFaultCount (d : Doc) : Nat :=
  [isErr d.h1, isErr d.priceSpan, isErr d.brandPrimary, isErr d.brandFallback,
   isErr d.carouselHrefs, isErr d.idSpans, isErr d.breadcrumbs,
   isErr d.keyFeatureBullet, isErr d.bulletItems, isErr d.descDiv,
   isErr d.specRows].countP id

/-! ## URLs and the collector (`extract_product_urls`, light_scraper.py
lines 125-197) -/

/-- A URL in the six-component shape of `urllib.parse.urlparse`. -/
structure PyURL where
  scheme : String
  netloc : String
  path : String
  params : String
  query : String
  fragment : String
deriving DecidableEq, Repr

/-- Relative-reference path merge of `urljoin`: the base path up to and
including its last `/`, then the reference path.  (Dot-segment
normalisation is not modelled; it does not depend on query or fragment
either.) -/
def mergePaths (basePath refPath : String) : String :=
  String.mk ((basePath.data.reverse.dropWhile (fun c => c ≠ '/')).reverse
    ++ refPath.data)

/-- Model of `urljoin(base, url)` (urllib.parse): an absolute reference wins
outright; a network-path reference takes the base scheme; an empty path
keeps the base path (and the base query when the reference has none);
otherwise the reference path is resolved against the base, and query and
fragment always come from the reference. -/
def urljoin (base u : PyURL) : PyURL :=
  if u.scheme ≠ "" then u
  else if u.netloc ≠ "" then { u with scheme := base.scheme }
  else if u.path = "" then
    { base with
      params := if u.params = "" then base.params else u.params
      query := if u.query = "" ∧ u.params = "" then base.query else u.query
      fragment := u.fragment }
  else
    { scheme := base.scheme
      netloc := base.netloc
      path := if "/".data.isPrefixOf u.path.data then u.path
              else mergePaths base.path u.path
      params := u.params
      query := u.query
      fragment := u.fragment }

/-- The cleaning step of the collector (lines 178-182):
`urlunparse((scheme, netloc, path, '', '', ''))` — params, query and
fragment stripped. -/
def cleanUrl (u : PyURL) : PyURL :=
  { u with params := "", query := "", fragment := "" }

/-- Canonicalization of one href: resolve against the base origin, then
strip query and fragment (lines 176-182). -/
def canonicalize (base u : PyURL) : PyURL :=
  cleanUrl (urljoin base u)

/-- `max_products` from `test_mode` (lines 134-141): `1`, `2`, or no cap. -/
def maxProductsOf (testMode : Nat) : Option Nat :=
  if testMode = 1 then some 1 else if testMode = 2 then some 2 else none

/-- Has the collector reached its cap?  (`max_products and
len(all_urls) >= max_products`.) -/
def limitReached (m? : Option Nat) (acc : List PyURL) : Bool :=
  match m? with
  | none => false
  | some m => acc.length ≥ m

/-- Processing of one anchor (lines 173-188): skip a missing href; join,
clean, and append only when the canonical URL is not already in the full
accumulated list; once the cap is reached every loop breaks, so no further
anchor is processed. -/
def collectStep (base : PyURL) (m? : Option Nat) (acc : List PyURL)
    (href? : Option PyURL) : List PyURL :=
  if limitReached m? acc then acc
  else
    match href? with
    | none => acc
    | some h =>
      let c := canonicalize base h
      if c ∈ acc then acc else acc ++ [c]

/-- One listing page: `none` models a failed fetch (`continue`, line 169),
`some anchors` the `a[href*="/i/"]` anchors with their (optional) hrefs. -/
def collectPage (base : PyURL) (m? : Option Nat) (acc : List PyURL) :
    Option (List (Option PyURL)) → List PyURL
  | none => acc
  | some anchors => anchors.foldl (collectStep base m?) acc

/-- `extract_product_urls` (lines 125-197): walk the fetched pages in order,
deduplicating into one accumulated list, bounded by the test-mode cap. -/
def extract_product_urls (base : PyURL)
    (pages : List (Option (List (Option PyURL)))) (testMode : Nat) :
    List PyURL :=
  pages.foldl (collectPage base (maxProductsOf testMode)) []

/-- The same walk with no cap at all (what `test_mode = 0` requests). -/
def collectUnbounded (base : PyURL)
    (pages : List (Option (List (Option PyURL)))) : List PyURL :=
  pages.foldl (collectPage base none) []

/-! ## Brand selection of `run_all_brands` (light_scraper.py lines 431-436) -/

/-- One entry of `url_list.json`. -/
structure BrandTarget where
  brand : String
  url : String
deriving DecidableEq, Repr

/-- `if test_mode == 1: brands = [rand.choice(brands)]` — `test_mode = 1`
replaces the brand list by a single randomly chosen entry (`pick` is the
random index); any other mode keeps the whole list. -/
def selectBrands (brands : List BrandTarget) (testMode : Nat)
    (pick : Fin brands.length) : List BrandTarget :=
  if testMode = 1 then [brands.get pick] else brands

/-! ## Reconciliation engine (`upload_to_database`, index.py lines 44-189) -/

/-- A persisted row of `scrapped_products2`: the product columns plus the
table's own `id`. -/
structure ExistingRow where
  id : Nat
  data : Product
deriving DecidableEq, Repr

/-- The persisted table: its rows in insertion order, plus the next fresh
`id`. -/
structure StoreState where
  rows : List ExistingRow
  nextId : Nat
deriving DecidableEq, Repr

/-- The composite-key filter built at index.py lines 104-111: an `eq`
predicate is added for `brand`, `Id`, `Model` only when the record's field
is a non-empty string (Python truthiness), so an empty component constrains
nothing. -/
def matchesKey (p : Product) (r : ExistingRow) : Bool :=
  (p.brand = "" ∨ r.data.brand = p.brand) ∧
  (p.Id = "" ∨ r.data.Id = p.Id) ∧
  (p.Model = "" ∨ r.data.Model = p.Model)

/-- The rows the composite-key query returns, in table order. -/
def queryRows (p : Product) (s : StoreState) : List ExistingRow :=
  s.rows.filter (matchesKey p)

/-- The comparison at index.py lines 120-126 over
`fields_to_compare = ['Title', 'Price', 'Image', 'Description',
'Specifications', 'category']`. -/
def needsUpdate (p q : Product) : Bool :=
  p.Title ≠ q.Title ∨ p.Price ≠ q.Price ∨ p.Image ≠ q.Image ∨
  p.Description ≠ q.Description ∨ p.Specifications ≠ q.Specifications ∨
  p.category ≠ q.category

/-- The outcome class of one record (index.py increments exactly one of the
four counters per record). -/
inductive Decision where
  | new : Decision
  | updated : Decision
  | skipped : Decision
  | failed (err : String) : Decision
deriving DecidableEq, Repr

/-- One entry of `product_details` (index.py lines 134-168): only the
record's title, brand, the action string, and — on the failed path only —
the error text.  No other information is recorded. -/
structure DetailEntry where
  title : String
  brand : String
  action : String
  error : Option String
deriving DecidableEq, Repr

/-- A write issued against the store. -/
inductive WriteOp where
  | insert (p : Product) : WriteOp
  | update (p : Product) (rowId : Nat) : WriteOp
deriving DecidableEq, Repr

/-- Effect of a successful write: `insert` appends a fresh row; `update`
replaces the data of the row whose `id` matches (index.py line 131 targets
`existing_product['id']`). -/
def applyWrite (s : StoreState) : WriteOp → StoreState
  | .insert p =>
    { rows := s.rows ++ [{ id := s.nextId, data := p }], nextId := s.nextId + 1 }
  | .update p rowId =>
    { s with rows := s.rows.map (fun r => if r.id = rowId then { r with data := p } else r) }

/-- Where the injected per-record exception strikes: during the
composite-key query, or during the insert/update call. -/
inductive FaultPt where
  | atQuery : FaultPt
  | atWrite : FaultPt
deriving DecidableEq, Repr

/-- What one loop iteration of `upload_to_database` produces for its record:
the outcome, the write it issued (if any), the `product_details` entry, the
changed-field list the code attaches to an Updated outcome (the code keeps
only the Boolean `needs_update` — line 120-126 — and stores no field list
anywhere, so this component is `none` on every path), and the record
object's state after the iteration (`record`), reflecting that line 130
mutates the input dict in place. -/
structure StepResult where
  decision : Decision
  write : Option WriteOp
  detail : DetailEntry
  changedFields : Option (List String)
  record : Product
deriving DecidableEq, Repr

/-- `product_details` entry for the failed path (lines 163-168). -/
def failedDetail (p : Product) (e : String) : DetailEntry :=
  { title := p.Title, brand := p.brand, action := "failed", error := some e }

/-- One iteration of the loop at index.py lines 92-168 for record `p`
against store `s`, with `fault` injecting the exception (if any) the
record's query or write raises.  Every exception is caught at this
granularity (lines 159-168). -/
def processProduct (fault : Product → Option FaultPt) (s : StoreState)
    (p : Product) : StepResult × StoreState :=
  if fault p = some .atQuery then
    ({ decision := .failed "query error", write := none,
       detail := failedDetail p "query error", changedFields := none,
       record := p }, s)
  else
    match queryRows p s with
    | [] =>
      if fault p = some .atWrite then
        ({ decision := .failed "write error", write := none,
           detail := failedDetail p "write error", changedFields := none,
           record := p }, s)
      else
        ({ decision := .new, write := some (.insert p),
           detail := { title := p.Title, brand := p.brand, action := "new", error := none },
           changedFields := none, record := p },
         applyWrite s (.insert p))
    | r :: _ =>
      if needsUpdate p r.data then
        let p' := { p with updated_at := some "now()" }
        if fault p = some .atWrite then
          ({ decision := .failed "write error", write := none,
             detail := failedDetail p' "write error", changedFields := none,
             record := p' }, s)
        else
          ({ decision := .updated, write := some (.update p' r.id),
             detail := { title := p.Title, brand := p.brand, action := "updated", error := none },
             changedFields := none, record := p' },
           applyWrite s (.update p' r.id))
      else
        ({ decision := .skipped, write := none,
           detail := { title := p.Title, brand := p.brand, action := "skipped", error := none },
           changedFields := none, record := p }, s)

/-- The whole loop: process the records in order, threading the store. -/
def uploadLoop (fault : Product → Option FaultPt) :
    StoreState → List Product → List StepResult × StoreState
  | s, [] => ([], s)
  | s, p :: ps =>
    let (r, s') := processProduct fault s p
    let (rs, s'') := uploadLoop fault s' ps
    (r :: rs, s'')

/-- Boolean discriminators for the four outcomes. -/
def Decision.isNew : Decision → Bool | .new => true | _ => false

def Decision.isUpdated : Decision → Bool | .updated => true | _ => false

def Decision.isSkipped : Decision → Bool | .skipped => true | _ => false

def Decision.isFailed : Decision → Bool | .failed _ => true | _ => false

/-- The summary dict built at index.py lines 180-187. -/
structure Stats where
  new : Nat
  updated : Nat
  skipped : Nat
  failed : Nat
  total : Nat
  details : List DetailEntry
deriving DecidableEq, Repr

/-- The value `upload_to_database` returns (line 189): the success flag
`failed == 0`, the brands seen, the stats, and the (always empty) failed
brand list. -/
structure UploadResult where
  success : Bool
  brands_scraped : List String
  stats : Stats
  failed_brands : List String
deriving DecidableEq, Repr

/-- The non-empty brands of the records, deduplicated in first-seen order
(the `brands_scraped` set of index.py lines 99-101). -/
def brandsOf (ps : List Product) : List String :=
  (ps.map Product.brand).foldl
    (fun acc b => if b ≠ "" ∧ b ∉ acc then acc ++ [b] else acc) []

/-- `upload_to_database` (index.py lines 44-189) on an in-memory product
list, a store, and a fault oracle: run the loop, count each outcome, and
return `failed == 0` as the success flag. -/
def upload_to_database (products : List Product)
    (fault : Product → Option FaultPt) (s : StoreState) : UploadResult :=
  let results := (uploadLoop fault s products).1
  let stats : Stats :=
    { new := results.countP (fun r => r.decision.isNew)
      updated := results.countP (fun r => r.decision.isUpdated)
      skipped := results.countP (fun r => r.decision.isSkipped)
      failed := results.countP (fun r => r.decision.isFailed)
      total := products.length
      details := results.map StepResult.detail }
  { success := stats.failed = 0
    brands_scraped := brandsOf products
    stats := stats
    failed_brands := [] }

/-- The exit decision of `main` (index.py lines 198-215): exit code 1 when
the scraper fails or the upload's success flag is false, else 0. -/
def mainExitCode (scraperOk : Bool) (uploadSuccess : Bool) : Nat :=
  if ¬scraperOk then 1 else if ¬uploadSuccess then 1 else 0

/-! ## Saving results (`save_to_supabase` and the tail of `run_all_brands`,
light_scraper.py lines 369-389 and 475-487) -/

/-- `save_to_supabase` (lines 369-389): without a configured client it
returns `False` at once; otherwise the batched upsert runs inside a
`try/except` that converts any store exception (`storeExc`) into a `False`
return — nothing escapes this function. -/
def save_to_supabase (configured : Bool) (storeExc : Option String)
    (_products : List Product) : Bool :=
  if ¬configured then false
  else match storeExc with
    | some _ => false
    | none => true

/-- What the tail of `run_all_brands` leaves behind: the store call's
result (when attempted) and the snapshot file's contents. -/
structure SaveOutcome where
  storeResult : Option Bool
  snapshot : Option (List Product)
deriving DecidableEq, Repr

/-- Lines 480-487 of `run_all_brands`: call `save_to_supabase` only when the
client is configured, then unconditionally dump the full accumulated
product list to the JSON snapshot. -/
def saveResults (configured : Bool) (storeExc : Option String)
    (allProducts : List Product) : SaveOutcome :=
  let storeResult :=
    if configured then some (save_to_supabase configured storeExc allProducts)
    else none
  { storeResult := storeResult, snapshot := some allProducts }

/-! ## Shared concrete values for witnesses and counterexamples -/

/-- A product with every field at its extraction default. -/
def pEmpty : Product :=
  { url := "", Title := "", Price := .null, brand := "", Image := some "",
    Other_image := [], Id := "", Model := "", category := [], Description := "",
    Specifications := [], updated_at := none }

/-- The fault oracle of a run in which no store exception occurs. -/
def noFault : Product → Option FaultPt := fun _ => none

end BBQ

namespace BBQ

/-- **C5** — counterexample. The claim says a non-numeric price yields "the
stripped text as-is"; on `"$9,g99"` the stripped text is `"9g99"`, but the
code (light_scraper.py line 222) keeps `price_text`, the raw element text
`"$9,g99"`. -/
theorem C5_price_keeps_raw_text_counterexample :
    priceClean "$9,g99" = "9g99" ∧
    priceRule (some "$9,g99") = .text "$9,g99" ∧
    priceRule (some "$9,g99") ≠ .text "9g99" := by
  refine ⟨by decide, by decide, by decide⟩

/-- **C5** — amended: the Price rule strips the currency symbol and
thousands separators and returns a number when the remaining text is
numeric; when it is not numeric it returns the *original raw element text*
(symbol and separators intact); when the element is absent it returns
null. -/
theorem C5_price_rule (t : String) :
    priceRule none = .null ∧
    (pyFloatAccepts (priceClean t) = true → priceRule (some t) = .num (priceClean t)) ∧
    (pyFloatAccepts (priceClean t) = false → priceRule (some t) = .text t) := by
  refine ⟨rfl, fun h => ?_, fun h => ?_⟩ <;> simp [priceRule, h]

/-- **C5** — witness: the amended rule evaluated on a parseable and an
unparseable price text. -/
theorem C5_price_rule_witness :
    priceRule (some "$1,299.99") = .num "1299.99" ∧
    priceRule (some "$Call for Price") = .text "$Call for Price" :=
  ⟨((C5_price_rule "$1,299.99").2.1 (by decide)).trans (by decide),
   (C5_price_rule "$Call for Price").2.2 (by decide)⟩

/-- **C9** — the snapshot write: whatever the store configuration and
whatever exception the store raises, the tail of `run_all_brands` writes
the full accumulated record set to the snapshot file; the store call, when
attempted, merely reports `false` on failure and cannot reach the snapshot
step. -/
theorem C9_snapshot_always_written (cfg : Bool) (exc : Option String)
    (ps : List Product) :
    (saveResults cfg exc ps).snapshot = some ps ∧
    (saveResults false exc ps).storeResult = none ∧
    save_to_supabase cfg exc ps = (cfg && exc.isNone) := by
  refine ⟨rfl, rfl, ?_⟩
  cases cfg <;> cases exc <;> simp [save_to_supabase]

/-- **C2** — composite-key lookup: a predicate is added only for non-empty
key components, so an empty `brand`, `Id`, or `Model` leaves the match
unconstrained in that column (the rows matched do not change when that
column's value changes); with an empty brand the filter reduces to the two
remaining predicates. -/
theorem C2_empty_key_components_widen (p : Product) (r : ExistingRow)
    (b i m : String) :
    (p.brand = "" → matchesKey p r
      = matchesKey p { r with data := { r.data with brand := b } }) ∧
    (p.Id = "" → matchesKey p r
      = matchesKey p { r with data := { r.data with Id := i } }) ∧
    (p.Model = "" → matchesKey p r
      = matchesKey p { r with data := { r.data with Model := m } }) ∧
    (p.brand = "" → matchesKey p r
      = ((p.Id = "" ∨ r.data.Id = p.Id) ∧ (p.Model = "" ∨ r.data.Model = p.Model))) := by
  refine ⟨fun h => ?_, fun h => ?_, fun h => ?_, fun h => ?_⟩ <;>
    simp [matchesKey, h]

/-- **C2** — witness: a record with an empty brand matches a row whose
brand column is non-empty (and the match is the same whatever the row's
brand is). -/
theorem C2_empty_key_components_widen_witness :
    matchesKey { pEmpty with Id := "7" } { id := 1, data := { pEmpty with brand := "Weber", Id := "7" } }
      = matchesKey { pEmpty with Id := "7" } { id := 1, data := { pEmpty with brand := "Napoleon", Id := "7" } } ∧
    matchesKey { pEmpty with Id := "7" } { id := 1, data := { pEmpty with brand := "Weber", Id := "7" } } = true :=
  ⟨by
    have h := (C2_empty_key_components_widen { pEmpty with Id := "7" }
      { id := 1, data := { pEmpty with brand := "Weber", Id := "7" } } "Napoleon" "" "").1 (by decide)
    simpa using h,
   by decide⟩

/-- **C10** — `upload_to_database` reports success iff the failed count is
zero; the batch still completes (the summary covers every record), and one
failed record makes the pipeline entry point exit with status 1 even when
the scraper step succeeded. -/
theorem C10_success_iff_no_failures (ps : List Product)
    (fault : Product → Option FaultPt) (s : StoreState) :
    ((upload_to_database ps fault s).success = true
      ↔ (upload_to_database ps fault s).stats.failed = 0) ∧
    (upload_to_database ps fault s).stats.total = ps.length ∧
    (1 ≤ (upload_to_database ps fault s).stats.failed →
      mainExitCode true (upload_to_database ps fault s).success = 1) := by
  refine ⟨?_, rfl, fun h => ?_⟩
  · simp [upload_to_database]
  · have hne : ¬((upload_to_database ps fault s).stats.failed = 0) := by omega
    simp only [upload_to_database] at hne ⊢
    simp [mainExitCode, hne]

/-- **C10** — witness: a batch with one record whose query faults gives
`failed = 1`, success `false`, and exit status 1. -/
theorem C10_success_iff_no_failures_witness :
    ((upload_to_database [pEmpty] (fun _ => some .atQuery) { rows := [], nextId := 0 }).success = true
      ↔ (upload_to_database [pEmpty] (fun _ => some .atQuery) { rows := [], nextId := 0 }).stats.failed = 0) ∧
    mainExitCode true (upload_to_database [pEmpty] (fun _ => some .atQuery) { rows := [], nextId := 0 }).success = 1 :=
  ⟨(C10_success_iff_no_failures [pEmpty] (fun _ => some .atQuery) { rows := [], nextId := 0 }).1,
   (C10_success_iff_no_failures [pEmpty] (fun _ => some .atQuery) { rows := [], nextId := 0 }).2.2 (by decide)⟩

/-- Each step result carries exactly one of the four outcomes, so the four
counts partition any result list. -/
lemma countP_decisions_eq_length (l : List StepResult) :
    l.countP (fun r => r.decision.isNew) + l.countP (fun r => r.decision.isUpdated)
      + l.countP (fun r => r.decision.isSkipped) + l.countP (fun r => r.decision.isFailed)
      = l.length := by
  induction l with
  | nil => rfl
  | cons x xs ih =>
    have hx : x.decision.isNew.toNat + x.decision.isUpdated.toNat
        + x.decision.isSkipped.toNat + x.decision.isFailed.toNat = 1 := by
      cases x.decision <;> rfl
    simp only [List.countP_cons, List.length_cons]
    cases hN : x.decision.isNew <;> cases hU : x.decision.isUpdated <;>
      cases hS : x.decision.isSkipped <;> cases hF : x.decision.isFailed <;>
      simp [hN, hU, hS, hF] at hx ⊢ <;> omega

/-- The loop produces one step result per input record. -/
lemma uploadLoop_length (fault : Product → Option FaultPt) (s : StoreState)
    (ps : List Product) : (uploadLoop fault s ps).1.length = ps.length := by
  induction ps generalizing s with
  | nil => rfl
  | cons p ps ih => simp [uploadLoop, ih]

/-- **C3** — every record gets exactly one of the four outcomes and the
loop never aborts: the summary always satisfies
`new + updated + skipped + failed = N`, one detail entry exists per record,
and a run with exactly one Failed record has the other `N - 1` records
distributed over New/Updated/Skipped. -/
theorem C3_outcome_partition (ps : List Product)
    (fault : Product → Option FaultPt) (s : StoreState) :
    (upload_to_database ps fault s).stats.new
        + (upload_to_database ps fault s).stats.updated
        + (upload_to_database ps fault s).stats.skipped
        + (upload_to_database ps fault s).stats.failed = ps.length ∧
    (upload_to_database ps fault s).stats.details.length = ps.length ∧
    ((upload_to_database ps fault s).stats.failed = 1 →
      (upload_to_database ps fault s).stats.new
        + (upload_to_database ps fault s).stats.updated
        + (upload_to_database ps fault s).stats.skipped = ps.length - 1) := by
  have hsum := countP_decisions_eq_length (uploadLoop fault s ps).1
  have hlen := uploadLoop_length fault s ps
  refine ⟨?_, ?_, fun h1 => ?_⟩
  · simp only [upload_to_database]
    omega
  · simp only [upload_to_database, List.length_map]
    exact hlen
  · simp only [upload_to_database] at h1 ⊢
    omega

/-- **C3** — witness: a batch of three records in which exactly the middle
one faults reports `failed = 1` and `new + updated + skipped = 2`. -/
theorem C3_outcome_partition_witness :
    (upload_to_database
        [pEmpty, { pEmpty with Title := "bad" }, { pEmpty with Title := "c" }]
        (fun p => if p.Title = "bad" then some .atQuery else none)
        { rows := [], nextId := 0 }).stats.failed = 1 ∧
    (upload_to_database
        [pEmpty, { pEmpty with Title := "bad" }, { pEmpty with Title := "c" }]
        (fun p => if p.Title = "bad" then some .atQuery else none)
        { rows := [], nextId := 0 }).stats.new
      + (upload_to_database
        [pEmpty, { pEmpty with Title := "bad" }, { pEmpty with Title := "c" }]
        (fun p => if p.Title = "bad" then some .atQuery else none)
        { rows := [], nextId := 0 }).stats.updated
      + (upload_to_database
        [pEmpty, { pEmpty with Title := "bad" }, { pEmpty with Title := "c" }]
        (fun p => if p.Title = "bad" then some .atQuery else none)
        { rows := [], nextId := 0 }).stats.skipped = 2 :=
  ⟨by decide,
   (C3_outcome_partition
      [pEmpty, { pEmpty with Title := "bad" }, { pEmpty with Title := "c" }]
      (fun p => if p.Title = "bad" then some .atQuery else none)
      { rows := [], nextId := 0 }).2.2 (by decide)⟩

/-- **C1** — counterexample. A record matching one persisted row and
differing from it exactly in `Title` gets decision Updated, but no list of
changed fields is attached anywhere: the code only keeps the Boolean
`needs_update` (index.py lines 120-126) and records `title`/`brand`/
`action` in the details (lines 134-138), so the changed-field component of
the step is `none`, not `["Title"]` as the claim requires. -/
theorem C1_no_changed_field_list_counterexample :
    (processProduct noFault
        { rows := [{ id := 42, data := { pEmpty with brand := "B", Id := "7", Title := "Old" } }],
          nextId := 43 }
        { pEmpty with brand := "B", Id := "7", Title := "New" }).1.decision = .updated ∧
    (processProduct noFault
        { rows := [{ id := 42, data := { pEmpty with brand := "B", Id := "7", Title := "Old" } }],
          nextId := 43 }
        { pEmpty with brand := "B", Id := "7", Title := "New" }).1.changedFields = none ∧
    (processProduct noFault
        { rows := [{ id := 42, data := { pEmpty with brand := "B", Id := "7", Title := "Old" } }],
          nextId := 43 }
        { pEmpty with brand := "B", Id := "7", Title := "New" }).1.changedFields ≠ some ["Title"] := by
  refine ⟨by decide, by decide, by decide⟩

/-- **C1** — amended: when the composite-key query returns at least one
row, the code compares exactly the six fields Title, Price, Image,
Description, Specifications, category against the first row; if any of the
six differs the decision is Updated — with *no* changed-field list
recorded — and an update write is issued against the first row's persisted
identifier; if all six are equal the decision is Skipped and no write is
issued, so a difference confined to a field outside the set (such as the
raw `url`) yields Skipped. -/
theorem C1_compare_six_fields (fault : Product → Option FaultPt)
    (s : StoreState) (p : Product) (r : ExistingRow) (rest : List ExistingRow)
    (hf : fault p = none) (hq : queryRows p s = r :: rest) :
    (needsUpdate p r.data = true →
      (processProduct fault s p).1.decision = .updated ∧
      (processProduct fault s p).1.write
        = some (.update { p with updated_at := some "now()" } r.id) ∧
      (processProduct fault s p).2
        = applyWrite s (.update { p with updated_at := some "now()" } r.id) ∧
      (processProduct fault s p).1.changedFields = none) ∧
    (needsUpdate p r.data = false →
      (processProduct fault s p).1.decision = .skipped ∧
      (processProduct fault s p).1.write = none ∧
      (processProduct fault s p).2 = s) ∧
    (needsUpdate p r.data = true ↔
      (p.Title ≠ r.data.Title ∨ p.Price ≠ r.data.Price ∨ p.Image ≠ r.data.Image ∨
       p.Description ≠ r.data.Description ∨ p.Specifications ≠ r.data.Specifications ∨
       p.category ≠ r.data.category)) := by
  refine ⟨fun hu => ?_, fun hu => ?_, ?_⟩
  · rw [processProduct.eq_def]
    simp [hf, hq, hu]
  · rw [processProduct.eq_def]
    simp [hf, hq, hu]
  · simp [needsUpdate]

/-- **C1** — witness: a pair differing only in the raw `url` is Skipped
with no write, while a pair differing in `Price` is Updated with the write
aimed at the existing row's identifier. -/
theorem C1_compare_six_fields_witness :
    (processProduct noFault
        { rows := [{ id := 9, data := { pEmpty with brand := "W", url := "https://old" } }], nextId := 10 }
        { pEmpty with brand := "W", url := "https://new" }).1.decision = .skipped ∧
    (processProduct noFault
        { rows := [{ id := 9, data := { pEmpty with brand := "W", url := "https://old" } }], nextId := 10 }
        { pEmpty with brand := "W", url := "https://new" }).1.write = none ∧
    (processProduct noFault
        { rows := [{ id := 11, data := { pEmpty with brand := "V", Price := .num "5" } }], nextId := 12 }
        { pEmpty with brand := "V", Price := .num "6" }).1.write
      = some (.update { pEmpty with brand := "V", Price := .num "6", updated_at := some "now()" } 11) :=
  ⟨((C1_compare_six_fields noFault
      { rows := [{ id := 9, data := { pEmpty with brand := "W", url := "https://old" } }], nextId := 10 }
      { pEmpty with brand := "W", url := "https://new" }
      { id := 9, data := { pEmpty with brand := "W", url := "https://old" } } []
      (by decide) (by decide)).2.1 (by decide)).1,
   ((C1_compare_six_fields noFault
      { rows := [{ id := 9, data := { pEmpty with brand := "W", url := "https://old" } }], nextId := 10 }
      { pEmpty with brand := "W", url := "https://new" }
      { id := 9, data := { pEmpty with brand := "W", url := "https://old" } } []
      (by decide) (by decide)).2.1 (by decide)).2.1,
   ((C1_compare_six_fields noFault
      { rows := [{ id := 11, data := { pEmpty with brand := "V", Price := .num "5" } }], nextId := 12 }
      { pEmpty with brand := "V", Price := .num "6" }
      { id := 11, data := { pEmpty with brand := "V", Price := .num "5" } } []
      (by decide) (by decide)).1 (by decide)).2.1⟩

/-- **C4** — counterexample. The update path does not operate on a copy:
index.py line 130 sets `product['updated_at'] = 'now()'` on the input
record itself, so after reconciling a record that needs an update the
original in-memory record has gained an `updated_at` key. -/
theorem C4_record_mutated_counterexample :
    ({ pEmpty with brand := "M", Title := "T2" } : Product).updated_at = none ∧
    (processProduct noFault
        { rows := [{ id := 3, data := { pEmpty with brand := "M", Title := "T1" } }], nextId := 4 }
        { pEmpty with brand := "M", Title := "T2" }).1.record.updated_at = some "now()" ∧
    (processProduct noFault
        { rows := [{ id := 3, data := { pEmpty with brand := "M", Title := "T1" } }], nextId := 4 }
        { pEmpty with brand := "M", Title := "T2" }).1.record
      ≠ { pEmpty with brand := "M", Title := "T2" } := by
  refine ⟨by decide, by decide, by decide⟩

/-- **C4** — amended: reconciliation leaves a record untouched on the New
and Skipped paths, but the update path mutates the input record in place,
and the only change ever made is adding the `updated_at` marker. -/
theorem C4_record_mutation (fault : Product → Option FaultPt) (s : StoreState)
    (p : Product) :
    ((processProduct fault s p).1.record = p ∨
     (processProduct fault s p).1.record = { p with updated_at := some "now()" }) ∧
    ((processProduct fault s p).1.decision = .new ∨
        (processProduct fault s p).1.decision = .skipped →
      (processProduct fault s p).1.record = p) ∧
    ((processProduct fault s p).1.decision = .updated →
      (processProduct fault s p).1.record = { p with updated_at := some "now()" }) := by
  unfold processProduct
  repeat' split
  all_goals simp

/-- **C4** — witness: the amended statement evaluated on a New-path record,
which stays unchanged. -/
theorem C4_record_mutation_witness :
    (processProduct noFault { rows := [], nextId := 0 } pEmpty).1.record = pEmpty :=
  (C4_record_mutation noFault { rows := [], nextId := 0 } pEmpty).2.1 (by decide)

/-- An item document on which every selector succeeds and finds nothing. -/
def docAllOk : Doc :=
  { h1 := .ok none, priceSpan := .ok none, brandPrimary := .ok none,
    brandFallback := .ok none, carouselHrefs := .ok [], idSpans := .ok [],
    breadcrumbs := .ok [], keyFeatureBullet := .ok none, bulletItems := .ok [],
    descDiv := .ok none, specRows := .ok [] }

/-- A document whose title is present but whose price rule raises — and
nothing else does. -/
def docPriceFault : Doc :=
  { docAllOk with h1 := .ok (some "T"), priceSpan := .error () }

/-- **C6** — counterexample. In `docPriceFault` exactly one field rule (the
price rule) faults, yet the whole call returns `null` — the single
`try/except` of light_scraper.py lines 209-296 aborts every other field —
whereas the claim says a fault in one field never prevents extraction of
the others. -/
theorem C6_single_fault_aborts_counterexample :
    docFaultCount docPriceFault = 1 ∧
    docPriceFault.h1 = .ok (some "T") ∧
    scrape_product "u" docPriceFault = none := by
  refine ⟨by decide, rfl, rfl⟩

/-- **C6** — amended: each field is extracted by an independent rule that
degrades to its default (empty string, null, empty sequence) when its
target *element is absent*, and absence never prevents extraction of the
other fields; but any *fault raised* while any one field rule runs is
caught only by the extraction-wide handler, which makes the whole call
return null. -/
theorem C6_field_rules (url : String) (t p b bf kf dd : Option String)
    (im : List (Option String)) (sp bc bu : List String) (sr : List SpecRow)
    (d : Doc) :
    (scrape_product url
        { h1 := .ok t, priceSpan := .ok p, brandPrimary := .ok b,
          brandFallback := .ok bf, carouselHrefs := .ok im, idSpans := .ok sp,
          breadcrumbs := .ok bc, keyFeatureBullet := .ok kf,
          bulletItems := .ok bu, descDiv := .ok dd, specRows := .ok sr }
      = some
        { url := url, Title := titleRule t, Price := priceRule p,
          brand := brandRule b bf, Image := imageRule im,
          Other_image := otherImagesRule im, Id := (idModelRule sp).1,
          Model := (idModelRule sp).2, category := categoryRule bc,
          Description := descriptionRule kf bu dd,
          Specifications := specsRule sr, updated_at := none }) ∧
    (titleRule none = "" ∧ priceRule none = .null ∧ brandRule none none = "" ∧
     imageRule [] = some "" ∧ otherImagesRule [] = [] ∧
     idModelRule [] = ("", "") ∧ categoryRule [] = [] ∧
     descriptionRule none [] none = "" ∧ specsRule [] = []) ∧
    (docFaults d = true → scrape_product url d = none) := by
  refine ⟨?_, ?_, fun hfault => ?_⟩
  · cases b <;> rfl
  · refine ⟨rfl, rfl, rfl, rfl, rfl, rfl, rfl, by decide, rfl⟩
  · obtain ⟨h1, pS, bP, bF, ch, ids, bc', kf', bu', dd', sr'⟩ := d
    cases h1 with
    | error e => rfl
    | ok t1 =>
    cases pS with
    | error e => rfl
    | ok t2 =>
    cases bP with
    | error e => rfl
    | ok b0 =>
    cases b0 with
    | some bb =>
      cases ch with
      | error e => rfl
      | ok l5 =>
      cases ids with
      | error e => rfl
      | ok l6 =>
      cases bc' with
      | error e => rfl
      | ok l7 =>
      cases kf' with
      | error e => rfl
      | ok o8 =>
      cases bu' with
      | error e => rfl
      | ok l9 =>
      cases dd' with
      | error e => rfl
      | ok o10 =>
      cases sr' with
      | error e => rfl
      | ok l11 =>
        simp [docFaults, isErr, isOkNone] at hfault
    | none =>
      cases bF with
      | error e => rfl
      | ok fb =>
      cases ch with
      | error e => rfl
      | ok l5 =>
      cases ids with
      | error e => rfl
      | ok l6 =>
      cases bc' with
      | error e => rfl
      | ok l7 =>
      cases kf' with
      | error e => rfl
      | ok o8 =>
      cases bu' with
      | error e => rfl
      | ok l9 =>
      cases dd' with
      | error e => rfl
      | ok o10 =>
      cases sr' with
      | error e => rfl
      | ok l11 =>
        simp [docFaults, isErr, isOkNone] at hfault

/-- **C6** — witness: the fault clause applied to a document whose only
fault is in the specification-table rule: the whole call returns null. -/
theorem C6_field_rules_witness :
    scrape_product "w" { docAllOk with specRows := .error () } = none :=
  (C6_field_rules "w" none none none none none none [] [] [] [] []
    { docAllOk with specRows := .error () }).2.2 (by decide)

/-- One collector step preserves distinctness of the accumulated list. -/
lemma collectStep_nodup (base : PyURL) (m? : Option Nat) (acc : List PyURL)
    (href? : Option PyURL) (h : acc.Nodup) :
    (collectStep base m? acc href?).Nodup := by
  unfold collectStep
  split
  · exact h
  · cases href? with
    | none => exact h
    | some u =>
      simp only
      split
      · exact h
      · rename_i hmem
        simp [List.nodup_append, h, hmem]

/-- Folding the collector step over a page's anchors preserves
distinctness. -/
lemma collectAnchors_nodup (base : PyURL) (m? : Option Nat)
    (anchors : List (Option PyURL)) (acc : List PyURL) (h : acc.Nodup) :
    (anchors.foldl (collectStep base m?) acc).Nodup := by
  induction anchors generalizing acc with
  | nil => exact h
  | cons a as ih => exact ih _ (collectStep_nodup base m? acc a h)

/-- Walking any sequence of pages preserves distinctness. -/
lemma collectPages_nodup (base : PyURL) (m? : Option Nat)
    (pages : List (Option (List (Option PyURL)))) (acc : List PyURL)
    (h : acc.Nodup) : (pages.foldl (collectPage base m?) acc).Nodup := by
  induction pages generalizing acc with
  | nil => exact h
  | cons pg pgs ih =>
    refine ih _ ?_
    cases pg with
    | none => exact h
    | some anchors => exact collectAnchors_nodup base m? anchors acc h

/-- Canonicalization ignores the query, fragment (and params) of the
reference: two hrefs agreeing on scheme, netloc, path and params
canonicalize identically against any base. -/
lemma canonicalize_ignores_query_fragment (base u1 u2 : PyURL)
    (hs : u1.scheme = u2.scheme) (hn : u1.netloc = u2.netloc)
    (hp : u1.path = u2.path) (hr : u1.params = u2.params) :
    canonicalize base u1 = canonicalize base u2 := by
  obtain ⟨s1, n1, p1, r1, q1, f1⟩ := u1
  obtain ⟨s2, n2, p2, r2, q2, f2⟩ := u2
  dsimp only at hs hn hp hr
  subst hs hn hp hr
  unfold canonicalize urljoin cleanUrl
  split_ifs <;> rfl

/-- **C7** — two item URLs that differ only in query string or fragment
canonicalize to the same URL, and the collector's output never contains a
canonical URL twice (membership is tested against the full accumulated
list, across all pages of the brand). -/
theorem C7_canonical_dedup (base u1 u2 : PyURL)
    (hs : u1.scheme = u2.scheme) (hn : u1.netloc = u2.netloc)
    (hp : u1.path = u2.path) (hr : u1.params = u2.params)
    (pages : List (Option (List (Option PyURL)))) (tm : Nat) :
    canonicalize base u1 = canonicalize base u2 ∧
    (extract_product_urls base pages tm).Nodup :=
  ⟨canonicalize_ignores_query_fragment base u1 u2 hs hn hp hr,
   collectPages_nodup base (maxProductsOf tm) pages [] List.nodup_nil⟩

/-- **C7** — witness: `/i/item-42?ref=home` and `/i/item-42#top` on the
site origin canonicalize identically, and a page carrying both anchors
yields a duplicate-free collection. -/
theorem C7_canonical_dedup_witness :
    canonicalize ⟨"https", "www.bbqguys.com", "", "", "", ""⟩
        ⟨"", "", "/i/item-42", "", "ref=home", ""⟩
      = canonicalize ⟨"https", "www.bbqguys.com", "", "", "", ""⟩
        ⟨"", "", "/i/item-42", "", "", "top"⟩ ∧
    (extract_product_urls ⟨"https", "www.bbqguys.com", "", "", "", ""⟩
        [some [some ⟨"", "", "/i/item-42", "", "ref=home", ""⟩,
               some ⟨"", "", "/i/item-42", "", "", "top"⟩]] 0).Nodup :=
  C7_canonical_dedup ⟨"https", "www.bbqguys.com", "", "", "", ""⟩
    ⟨"", "", "/i/item-42", "", "ref=home", ""⟩
    ⟨"", "", "/i/item-42", "", "", "top"⟩ rfl rfl rfl rfl
    [some [some ⟨"", "", "/i/item-42", "", "ref=home", ""⟩,
           some ⟨"", "", "/i/item-42", "", "", "top"⟩]] 0

/-- One collector step never grows the list beyond the cap. -/
lemma collectStep_length_le (base : PyURL) (m : Nat) (acc : List PyURL)
    (href? : Option PyURL) (h : acc.length ≤ m) :
    (collectStep base (some m) acc href?).length ≤ m := by
  unfold collectStep
  split
  · exact h
  · rename_i hlim
    have hlt : acc.length < m := by
      simp [limitReached] at hlim
      omega
    cases href? with
    | none => exact h
    | some u =>
      simp only
      split
      · exact h
      · simp only [List.length_append, List.length_singleton]
        omega

/-- A page walk never grows the list beyond the cap. -/
lemma collectAnchors_length_le (base : PyURL) (m : Nat)
    (anchors : List (Option PyURL)) (acc : List PyURL)
    (h : acc.length ≤ m) :
    (anchors.foldl (collectStep base (some m)) acc).length ≤ m := by
  induction anchors generalizing acc with
  | nil => exact h
  | cons a as ih => exact ih _ (collectStep_length_le base m acc a h)

/-- The multi-page walk never grows the list beyond the cap. -/
lemma collectPages_length_le (base : PyURL) (m : Nat)
    (pages : List (Option (List (Option PyURL)))) (acc : List PyURL)
    (h : acc.length ≤ m) :
    (pages.foldl (collectPage base (some m)) acc).length ≤ m := by
  induction pages generalizing acc with
  | nil => exact h
  | cons pg pgs ih =>
    refine ih _ ?_
    cases pg with
    | none => exact h
    | some anchors => exact collectAnchors_length_le base m anchors acc h

/-- **C8** — test-mode caps: `TEST_MODE=1` collects at most one unique URL
and processes exactly one (randomly chosen) brand; `TEST_MODE=2` collects at
most two unique URLs per processed brand (all brands kept); `TEST_MODE=0`
runs the very same walk with no cap at all. -/
theorem C8_test_mode_caps (base : PyURL)
    (pages : List (Option (List (Option PyURL))))
    (brands : List BrandTarget) (pick : Fin brands.length) :
    (extract_product_urls base pages 1).length ≤ 1 ∧
    (extract_product_urls base pages 2).length ≤ 2 ∧
    extract_product_urls base pages 0 = collectUnbounded base pages ∧
    (selectBrands brands 1 pick).length = 1 ∧
    selectBrands brands 2 pick = brands ∧
    selectBrands brands 0 pick = brands := by
  refine ⟨?_, ?_, rfl, rfl, rfl, rfl⟩
  · exact collectPages_length_le base 1 pages [] (by simp)
  · exact collectPages_length_le base 2 pages [] (by simp)

/-- **C8** — witness: the caps evaluated on a concrete two-anchor page and
a concrete one-brand pick. -/
theorem C8_test_mode_caps_witness :
    (extract_product_urls ⟨"https", "www.bbqguys.com", "", "", "", ""⟩
        [some [some ⟨"", "", "/i/a", "", "", ""⟩, some ⟨"", "", "/i/b", "", "", ""⟩]]
        1).length ≤ 1 ∧
    (selectBrands [⟨"Weber", "https://www.bbqguys.com/brands/weber"⟩] 1
        ⟨0, by decide⟩).length = 1 :=
  ⟨(C8_test_mode_caps ⟨"https", "www.bbqguys.com", "", "", "", ""⟩
      [some [some ⟨"", "", "/i/a", "", "", ""⟩, some ⟨"", "", "/i/b", "", "", ""⟩]]
      [⟨"Weber", "https://www.bbqguys.com/brands/weber"⟩] ⟨0, by decide⟩).1,
   (C8_test_mode_caps ⟨"https", "www.bbqguys.com", "", "", "", ""⟩
      [some [some ⟨"", "", "/i/a", "", "", ""⟩, some ⟨"", "", "/i/b", "", "", ""⟩]]
      [⟨"Weber", "https://www.bbqguys.com/brands/weber"⟩] ⟨0, by decide⟩).2.2.2.1⟩

end BBQ
